import Mathlib

/-!
Shallow embedding of the salary-dashboard program (`src/app1.py`).

The program loads a table of salary records and, for each user interaction,
filters it by four set-membership predicates (year, seniority, contract type,
company size) built from pandas boolean masks, then computes summary metrics
(mean, max, count, mode of job title) and chart aggregates (top job titles by
mean salary, mean salary by residence country for the fixed title
"Data Scientist", country-code conversion via a reference table).

Tables are embedded as `List Row`; pandas series operations are embedded as the
corresponding list operations (`isin` as a boolean mask, `&` as pointwise
conjunction, boolean indexing as mask selection, `groupby(...).mean()` as a
map over the sorted distinct keys, `mode` as the sorted list of values of
maximal count, `nlargest` as a descending sort followed by `take`).
Fallible steps (tuple unpacking, positional indexing, attribute access guarded
by `try`/`except`) are embedded in `Except`/`Option`.
-/

/-- One row of the salary table (`dados_salarios_limpos.csv`), with the
columns the program reads: `ano`, `senioridade`, `contrato`,
`tamanho_empresa`, `cargo`, `remoto`, `residencia`, `usd`. -/
structure Row where
  ano : Int
  senioridade : String
  contrato : String
  tamanho_empresa : String
  cargo : String
  remoto : String
  residencia : String
  usd : ℚ
deriving DecidableEq, Repr

/-- pandas `series.isin(sel)`: the boolean mask recording, for each element of
the column, membership in the selected values. -/
def isinMask {α : Type} [DecidableEq α] (col : List α) (sel : List α) : List Bool :=
  col.map (fun v => decide (v ∈ sel))

/-- pandas `&` on two boolean masks: pointwise conjunction. -/
def maskAnd (m1 m2 : List Bool) : List Bool :=
  List.zipWith and m1 m2

/-- pandas boolean indexing `df[mask]`: keep the rows whose mask entry is
`true`, in order. -/
def maskSelect (rows : List Row) (mask : List Bool) : List Row :=
  ((rows.zip mask).filter (fun p => p.2)).map (fun p => p.1)

/-- `df_filtrado` (app1.py lines 54-59): the table filtered by the conjunction
of the four `isin` masks over the selected years, seniorities, contract types
and company sizes. -/
def df_filtrado (df : List Row) (anos_selecionados : List Int)
    (senioridades_selecionadas contratos_selecionados tamanhos_selecionados : List String) :
    List Row :=
  maskSelect df
    (maskAnd (maskAnd (maskAnd
      (isinMask (df.map Row.ano) anos_selecionados)
      (isinMask (df.map Row.senioridade) senioridades_selecionadas))
      (isinMask (df.map Row.contrato) contratos_selecionados))
      (isinMask (df.map Row.tamanho_empresa) tamanhos_selecionados))

/-- The row predicate that the specification states for the filter: each of the
four categorical fields is a member of the corresponding selected set. -/
def rowSelected (a : List Int) (s c t : List String) (r : Row) : Prop :=
  r.ano ∈ a ∧ r.senioridade ∈ s ∧ r.contrato ∈ c ∧ r.tamanho_empresa ∈ t

instance (a : List Int) (s c t : List String) (r : Row) : Decidable (rowSelected a s c t r) := by
  unfold rowSelected
  infer_instance

lemma maskSelect_cons (r : Row) (rows : List Row) (b : Bool) (mask : List Bool) :
    maskSelect (r :: rows) (b :: mask) =
      if b then r :: maskSelect rows mask else maskSelect rows mask := by
  cases b <;> simp [maskSelect]

lemma maskSelect_map (df : List Row) (p : Row → Bool) :
    maskSelect df (df.map p) = df.filter p := by
  induction df with
  | nil => rfl
  | cons r rest ih =>
    simp only [List.map_cons, maskSelect_cons, List.filter_cons, ih]

/-- The conjunction of the four `isin` masks is the mask of the combined
membership predicate. -/
lemma maskCombine (df : List Row) (a : List Int) (s c t : List String) :
    maskAnd (maskAnd (maskAnd
      (isinMask (df.map Row.ano) a)
      (isinMask (df.map Row.senioridade) s))
      (isinMask (df.map Row.contrato) c))
      (isinMask (df.map Row.tamanho_empresa) t) =
    df.map (fun r => decide (rowSelected a s c t r)) := by
  induction df with
  | nil => rfl
  | cons r rest ih =>
    simp only [isinMask, maskAnd, List.map_cons, List.zipWith_cons_cons] at ih ⊢
    rw [ih]
    simp [rowSelected, Bool.and_assoc]

/-- The mask-based filter agrees with a single `List.filter` by the
conjunction of the four membership predicates. -/
lemma df_filtrado_eq_filter (df : List Row) (a : List Int) (s c t : List String) :
    df_filtrado df a s c t = df.filter (fun r => decide (rowSelected a s c t r)) := by
  rw [df_filtrado, maskCombine, maskSelect_map]

/-- `anos_disponiveis` (app1.py line 37): the sorted distinct years of the
table, the default selection of the year filter. -/
def anos_disponiveis (df : List Row) : List Int :=
  ((df.map Row.ano).dedup).insertionSort (· ≤ ·)

/-- `senioridades_disponiveis` (app1.py line 41): sorted distinct seniorities. -/
def senioridades_disponiveis (df : List Row) : List String :=
  ((df.map Row.senioridade).dedup).insertionSort (· ≤ ·)

/-- `contratos_disponiveis` (app1.py line 45): sorted distinct contract types. -/
def contratos_disponiveis (df : List Row) : List String :=
  ((df.map Row.contrato).dedup).insertionSort (· ≤ ·)

/-- `tamanhos_disponiveis` (app1.py line 49): sorted distinct company sizes. -/
def tamanhos_disponiveis (df : List Row) : List String :=
  ((df.map Row.tamanho_empresa).dedup).insertionSort (· ≤ ·)

/-- A small concrete salary table used to instantiate the theorems. -/
def sampleDf : List Row :=
  [⟨2024, "senior", "integral", "media", "Data Scientist", "remoto", "US", 100⟩,
   ⟨2023, "pleno", "integral", "grande", "Data Engineer", "presencial", "BR", 90⟩,
   ⟨2024, "senior", "integral", "media", "Data Scientist", "hibrido", "BR", 120⟩]

/-- C1: for every table and every choice of the four selection sets, the
filtered subset is exactly the rows whose year, seniority, contract and
company-size values each belong to the corresponding selection set, kept in
the input order (it equals the order-preserving `List.filter` of that
conjunction, and is a sublist of the input table). -/
theorem df_filtrado_is_membership_filter (df : List Row) (a : List Int) (s c t : List String) :
    df_filtrado df a s c t = df.filter (fun r => decide (rowSelected a s c t r)) ∧
    (df_filtrado df a s c t).Sublist df := by
  refine ⟨df_filtrado_eq_filter df a s c t, ?_⟩
  rw [df_filtrado_eq_filter]
  exact List.filter_sublist df

/-- C3: if any one of the four selection sets is empty, the filtered subset is
empty (membership in an empty selection holds for no row). -/
theorem df_filtrado_empty_selection (df : List Row) (a : List Int) (s c t : List String)
    (h : a = [] ∨ s = [] ∨ c = [] ∨ t = []) :
    df_filtrado df a s c t = [] := by
  rw [df_filtrado_eq_filter]
  rcases h with h | h | h | h <;> subst h <;> simp [rowSelected]

/-- Witness for C3 at a concrete table and an empty year selection. -/
theorem df_filtrado_empty_selection_witness :
    df_filtrado sampleDf [] ["senior"] ["integral"] ["media"] = [] :=
  df_filtrado_empty_selection sampleDf [] ["senior"] ["integral"] ["media"] (Or.inl rfl)

/-- C8: filtering is idempotent — applying the filter twice with the same four
selection sets yields the same subset — and non-destructive: the result is a
sublist of the input table, which the (pure) filter leaves untouched. -/
theorem df_filtrado_idempotent (df : List Row) (a : List Int) (s c t : List String) :
    df_filtrado (df_filtrado df a s c t) a s c t = df_filtrado df a s c t ∧
    (df_filtrado df a s c t).Sublist df := by
  refine ⟨?_, ?_⟩
  · rw [df_filtrado_eq_filter df, df_filtrado_eq_filter, List.filter_filter]
    simp
  · rw [df_filtrado_eq_filter]
    exact List.filter_sublist df

/-- C9: when each selection set is the full list of distinct values present in
its column (the default UI selection), the filter is the identity. -/
theorem df_filtrado_default_identity (df : List Row) :
    df_filtrado df (anos_disponiveis df) (senioridades_disponiveis df)
      (contratos_disponiveis df) (tamanhos_disponiveis df) = df := by
  rw [df_filtrado_eq_filter]
  apply List.filter_eq_self.mpr
  intro r hr
  simp only [decide_eq_true_eq, rowSelected, anos_disponiveis, senioridades_disponiveis,
    contratos_disponiveis, tamanhos_disponiveis, List.mem_insertionSort, List.mem_dedup,
    List.mem_map]
  exact ⟨⟨r, hr, rfl⟩, ⟨r, hr, rfl⟩, ⟨r, hr, rfl⟩, ⟨r, hr, rfl⟩⟩

/-- pandas `series.mean()`: sum divided by length. -/
def listMean (l : List ℚ) : ℚ := l.sum / (l.length : ℚ)

/-- pandas `series.max()` of a numeric series (used on non-empty input). -/
def listMax : List ℚ → ℚ
  | [] => 0
  | h :: t => t.foldr max h

/-- The maximal number of occurrences of any value of the series. -/
def maxCnt (l : List String) : Nat := (l.map (fun v => l.count v)).foldr max 0

/-- pandas `series.mode()`: the values attaining the maximal occurrence count,
returned in sorted (lexicographic) order. -/
def pandasMode (l : List String) : List String :=
  ((l.dedup).filter (fun v => decide (l.count v = maxCnt l))).insertionSort (· ≤ ·)

/-- pandas positional access `series[0]`: raises `KeyError` on an empty
series, otherwise returns the first entry. -/
def seriesGet0 (l : List String) : Except String String :=
  match l with
  | [] => Except.error "KeyError: 0"
  | h :: _ => Except.ok h

/-- `cargo_mais_frequente` (app1.py line 69): `df_filtrado['cargo'].mode()[0]`. -/
def cargo_mais_frequente (cargos : List String) : Except String String :=
  seriesGet0 (pandasMode cargos)

/-- A Python scalar value appearing in the fallback metrics tuple. -/
inductive PyVal where
  | int (n : Int)
  | str (s : String)
deriving DecidableEq, Repr

/-- Python tuple unpacking `x1, ..., xn = v1, ..., vm`: succeeds exactly when
the number of values matches the number of targets, otherwise raises
`ValueError`. -/
def pyUnpack (nTargets : Nat) (vals : List PyVal) : Except String (List PyVal) :=
  if vals.length = nTargets then Except.ok vals
  else Except.error "ValueError: not enough values to unpack"

/-- The four metric values rendered in the metrics row (app1.py lines 73-77). -/
structure Metrics where
  salario_medio : ℚ
  salario_maximo : ℚ
  total_registros : Nat
  cargo_mais_frequente : String
deriving DecidableEq, Repr

/-- The metrics computation (app1.py lines 65-77). On a non-empty subset the
four metrics are mean, max, row count and `mode()[0]` of the job titles. On an
empty subset the fallback line 71 `salario_medio, salario_mediano,
salario_maximo, total_registros, cargo_mais_comum = 0, 0, 0, ""` unpacks a
4-tuple into 5 targets; and were that to succeed, line 77 would still read the
name `cargo_mais_frequente`, which the fallback does not bind. -/
def metricsBlock (subset : List Row) : Except String Metrics :=
  if subset.isEmpty then
    match pyUnpack 5 [PyVal.int 0, PyVal.int 0, PyVal.int 0, PyVal.str ""] with
    | Except.error e => Except.error e
    | Except.ok _ => Except.error "NameError: cargo_mais_frequente is not defined"
  else
    match cargo_mais_frequente (subset.map Row.cargo) with
    | Except.error e => Except.error e
    | Except.ok cargo =>
      Except.ok ⟨listMean (subset.map Row.usd), listMax (subset.map Row.usd),
        subset.length, cargo⟩

/-- C2 (code bug): on an empty filtered subset the metrics code raises a
`ValueError` from the mismatched fallback tuple assignment (four values, five
targets) instead of yielding the documented defaults 0/0/0/"". -/
theorem metricsBlock_empty_raises :
    metricsBlock (df_filtrado sampleDf [] [] [] []) =
      Except.error "ValueError: not enough values to unpack" := by
  rfl

lemma mem_le_foldr_max {x : Nat} {m : List Nat} (hx : x ∈ m) : x ≤ m.foldr max 0 := by
  induction m with
  | nil => cases hx
  | cons y ys ih =>
    simp only [List.foldr_cons]
    rcases List.mem_cons.mp hx with h | h
    · subst h
      exact le_max_left _ _
    · exact le_trans (ih h) (le_max_right _ _)

lemma foldr_max_le {b : Nat} {m : List Nat} (hm : ∀ x ∈ m, x ≤ b) : m.foldr max 0 ≤ b := by
  induction m with
  | nil => simp
  | cons y ys ih =>
    simp only [List.foldr_cons]
    exact max_le (hm y (List.mem_cons_self y ys))
      (ih fun x hx => hm x (List.mem_cons_of_mem y hx))

lemma exists_argmax {α : Type} (f : α → Nat) : ∀ {l : List α}, l ≠ [] →
    ∃ v ∈ l, ∀ u ∈ l, f u ≤ f v := by
  intro l
  induction l with
  | nil => intro h; cases h rfl
  | cons x xs ih =>
    intro _
    by_cases hxs : xs = []
    · subst hxs
      refine ⟨x, List.mem_cons_self x [], ?_⟩
      intro u hu
      rcases List.mem_cons.mp hu with h | h
      · subst h; exact le_refl _
      · cases h
    · obtain ⟨v, hv, hmax⟩ := ih hxs
      by_cases hcmp : f x ≤ f v
      · refine ⟨v, List.mem_cons_of_mem x hv, ?_⟩
        intro u hu
        rcases List.mem_cons.mp hu with h | h
        · subst h; exact hcmp
        · exact hmax u h
      · refine ⟨x, List.mem_cons_self x xs, ?_⟩
        intro u hu
        rcases List.mem_cons.mp hu with h | h
        · subst h; exact le_refl _
        · exact le_trans (hmax u h) (le_of_not_le hcmp)

lemma count_le_maxCnt {v : String} {l : List String} (hv : v ∈ l) :
    l.count v ≤ maxCnt l :=
  mem_le_foldr_max (List.mem_map.mpr ⟨v, hv, rfl⟩)

lemma exists_count_eq_maxCnt {l : List String} (h : l ≠ []) :
    ∃ v ∈ l, l.count v = maxCnt l := by
  obtain ⟨v, hv, hmax⟩ := exists_argmax (fun v => l.count v) h
  refine ⟨v, hv, le_antisymm (count_le_maxCnt hv) ?_⟩
  unfold maxCnt
  apply foldr_max_le
  intro x hx
  obtain ⟨u, hu, rfl⟩ := List.mem_map.mp hx
  exact hmax u hu

/-- Membership characterisation of the pandas mode. -/
lemma mem_pandasMode {l : List String} {y : String} :
    y ∈ pandasMode l ↔ y ∈ l ∧ l.count y = maxCnt l := by
  unfold pandasMode
  rw [List.mem_insertionSort, List.mem_filter, List.mem_dedup]
  simp

lemma pandasMode_ne_nil {l : List String} (h : l ≠ []) : pandasMode l ≠ [] := by
  obtain ⟨v, hv, hcnt⟩ := exists_count_eq_maxCnt h
  intro hnil
  have hmem : v ∈ pandasMode l := mem_pandasMode.mpr ⟨hv, hcnt⟩
  rw [hnil] at hmem
  cases hmem

/-- The head of the pandas mode is the lexicographically least value of
maximal count. -/
lemma pandasMode_head_least {l : List String} (h : l ≠ []) :
    ∃ x, seriesGet0 (pandasMode l) = Except.ok x ∧ x ∈ l ∧
      l.count x = maxCnt l ∧ ∀ y ∈ l, l.count y = maxCnt l → x ≤ y := by
  have hne := pandasMode_ne_nil h
  cases hp : pandasMode l with
  | nil => exact absurd hp hne
  | cons x xs =>
    have hsorted : List.Sorted (· ≤ ·) (pandasMode l) := by
      unfold pandasMode
      exact List.sorted_insertionSort _ _
    rw [hp] at hsorted
    obtain ⟨hle, _⟩ := List.sorted_cons.mp hsorted
    have hx : x ∈ l ∧ l.count x = maxCnt l := by
      apply mem_pandasMode.mp
      rw [hp]
      exact List.mem_cons_self x xs
    refine ⟨x, rfl, hx.1, hx.2, ?_⟩
    intro y hy hcy
    have : y ∈ pandasMode l := mem_pandasMode.mpr ⟨hy, hcy⟩
    rw [hp] at this
    rcases List.mem_cons.mp this with h | h
    · subst h; exact le_refl _
    · exact hle y h

/-- C10: on a non-empty filtered subset, the mode of the job-title column is
non-empty, so the positional access `mode()[0]` in `cargo_mais_frequente`
succeeds (never raises the `KeyError` of indexing an empty series). -/
theorem cargo_mode_access_safe (df : List Row) (a : List Int) (s c t : List String)
    (h : df_filtrado df a s c t ≠ []) :
    pandasMode ((df_filtrado df a s c t).map Row.cargo) ≠ [] ∧
    ∃ x, cargo_mais_frequente ((df_filtrado df a s c t).map Row.cargo) = Except.ok x := by
  have hm : (df_filtrado df a s c t).map Row.cargo ≠ [] := by
    simpa using h
  have hne := pandasMode_ne_nil hm
  refine ⟨hne, ?_⟩
  unfold cargo_mais_frequente seriesGet0
  cases hp : pandasMode ((df_filtrado df a s c t).map Row.cargo) with
  | nil => exact absurd hp hne
  | cons x xs => exact ⟨x, rfl⟩

/-- Witness for C10 on the sample table with its full default selections. -/
theorem cargo_mode_access_safe_witness :
    pandasMode ((df_filtrado sampleDf [2024] ["senior"] ["integral"] ["media"]).map Row.cargo) ≠ [] ∧
    ∃ x, cargo_mais_frequente
      ((df_filtrado sampleDf [2024] ["senior"] ["integral"] ["media"]).map Row.cargo) =
      Except.ok x :=
  cargo_mode_access_safe sampleDf [2024] ["senior"] ["integral"] ["media"] (by decide)

/-- A table whose job-title column is tied: "B" and "A" each occur once, and
"B" occurs first in row order. -/
def tieDf : List Row :=
  [⟨2024, "senior", "integral", "media", "B", "remoto", "US", 100⟩,
   ⟨2024, "senior", "integral", "media", "A", "remoto", "US", 100⟩]

/-- The tie-breaking rule the specification states for the reported mode: the
first value in row order among those attaining the maximal count. -/
def firstEncounteredMode (l : List String) : Option String :=
  (l.filter (fun v => decide (l.count v = maxCnt l))).head?

/-- C4 counterexample: the filter of `tieDf` with its full selections is all of
`tieDf`; on its job-title column, "B" and "A" are tied for most frequent and
"B" occurs first, yet the code reports "A" — pandas `mode()` returns the modes
sorted, so `mode()[0]` is the lexicographically least, not the first
encountered. -/
theorem cargo_mais_frequente_not_first_encountered :
    df_filtrado tieDf [2024] ["senior"] ["integral"] ["media"] = tieDf ∧
    firstEncounteredMode (tieDf.map Row.cargo) = some "B" ∧
    cargo_mais_frequente (tieDf.map Row.cargo) = Except.ok "A" ∧
    ("A" : String) ≠ "B" := by
  refine ⟨by decide, by decide, ?_, by decide⟩
  have hBA : ¬ ("B" : String) ≤ "A" := by
    simp only [String.le_iff_toList_le]
    decide
  show seriesGet0 (pandasMode ["B", "A"]) = Except.ok "A"
  unfold pandasMode
  have hfil : ((["B", "A"] : List String).dedup).filter
      (fun v => decide ((["B", "A"] : List String).count v = maxCnt ["B", "A"])) =
      ["B", "A"] := by decide
  rw [hfil]
  simp [List.insertionSort, List.orderedInsert, hBA, seriesGet0]

/-- C4 amended: on every non-empty filtered subset, the reported most frequent
job title attains the maximal occurrence count among the subset's job titles,
and when several titles are tied for that count the lexicographically least
one is returned (pandas sorts the modes before `[0]` is taken). -/
theorem cargo_mais_frequente_least_mode (df : List Row) (a : List Int) (s c t : List String)
    (h : df_filtrado df a s c t ≠ []) :
    ∃ x, cargo_mais_frequente ((df_filtrado df a s c t).map Row.cargo) = Except.ok x ∧
      x ∈ (df_filtrado df a s c t).map Row.cargo ∧
      ((df_filtrado df a s c t).map Row.cargo).count x =
        maxCnt ((df_filtrado df a s c t).map Row.cargo) ∧
      ∀ y ∈ (df_filtrado df a s c t).map Row.cargo,
        ((df_filtrado df a s c t).map Row.cargo).count y =
          maxCnt ((df_filtrado df a s c t).map Row.cargo) → x ≤ y := by
  unfold cargo_mais_frequente
  exact pandasMode_head_least (by simpa using h)

/-- Witness for the amended C4 on the sample table. -/
theorem cargo_mais_frequente_least_mode_witness :
    ∃ x, cargo_mais_frequente
        ((df_filtrado sampleDf [2024] ["senior"] ["integral"] ["media"]).map Row.cargo) =
        Except.ok x ∧
      x ∈ (df_filtrado sampleDf [2024] ["senior"] ["integral"] ["media"]).map Row.cargo ∧
      ((df_filtrado sampleDf [2024] ["senior"] ["integral"] ["media"]).map Row.cargo).count x =
        maxCnt ((df_filtrado sampleDf [2024] ["senior"] ["integral"] ["media"]).map Row.cargo) ∧
      ∀ y ∈ (df_filtrado sampleDf [2024] ["senior"] ["integral"] ["media"]).map Row.cargo,
        ((df_filtrado sampleDf [2024] ["senior"] ["integral"] ["media"]).map Row.cargo).count y =
          maxCnt ((df_filtrado sampleDf [2024] ["senior"] ["integral"] ["media"]).map Row.cargo) →
          x ≤ y :=
  cargo_mais_frequente_least_mode sampleDf [2024] ["senior"] ["integral"] ["media"] (by decide)

/-- Python `str.upper()`: upper-case every character. -/
def pyUpper (s : String) : String :=
  ⟨s.data.map Char.toUpper⟩

/-- Modelled from the spec: one entry of the external country reference table.
The pycountry database is an out-of-scope collaborator; the specification only
describes its contract — a reference table from 2-letter to 3-letter codes. -/
structure Country where
  alpha_2 : String
  alpha_3 : String
deriving DecidableEq, Repr

/-- Modelled from the spec: a fragment of the external country reference
table; "ZZ" is not an assigned 2-letter code. -/
def countriesTable : List Country :=
  [⟨"US", "USA"⟩, ⟨"BR", "BRA"⟩, ⟨"DE", "DEU"⟩, ⟨"FR", "FRA"⟩, ⟨"GB", "GBR"⟩]

/-- Modelled from the spec: `pycountry.countries.get(alpha_2=code)` — `some`
table entry when the code is known, `none` (Python `None`) otherwise. -/
def pycountryGet (code : String) : Option Country :=
  countriesTable.find? (fun c => decide (c.alpha_2 = code))

/-- The body of `converter_sigla` inside the `try` (app1.py line 10): look up
the upper-cased code and read `.alpha_3`; when the lookup returns `None`, the
attribute access raises. -/
def converter_sigla_body (sigla : String) : Except String String :=
  match pycountryGet (pyUpper sigla) with
  | some c => Except.ok c.alpha_3
  | none => Except.error "AttributeError: NoneType has no attribute alpha_3"

/-- `converter_sigla` (app1.py lines 8-12): the bare `except` turns any raised
exception into `None`. -/
def converter_sigla (sigla : String) : Option String :=
  (converter_sigla_body sigla).toOption

/-- C5: the country-code normalizer is total and never propagates an
exception: for every input string, when the upper-cased input is a known
2-letter code the result is `some` of its 3-letter code (so the lookup is
case-insensitive), and otherwise — unknown or malformed input — the result is
`none`; in particular "US" and "us" map to "USA" and the unassigned "ZZ" to
`none`. -/
theorem converter_sigla_total_spec :
    (∀ sigla c, pycountryGet (pyUpper sigla) = some c →
      converter_sigla sigla = some c.alpha_3) ∧
    (∀ sigla, pycountryGet (pyUpper sigla) = none → converter_sigla sigla = none) ∧
    converter_sigla "US" = some "USA" ∧
    converter_sigla "us" = some "USA" ∧
    converter_sigla "ZZ" = none := by
  refine ⟨?_, ?_, rfl, rfl, rfl⟩
  · intro sigla c h
    unfold converter_sigla converter_sigla_body
    rw [h]
    rfl
  · intro sigla h
    unfold converter_sigla converter_sigla_body
    rw [h]
    rfl

/-- Witness for C5: the generic known-code case applied at the lower-case
input "br". -/
theorem converter_sigla_total_spec_witness :
    converter_sigla "br" = some "BRA" :=
  converter_sigla_total_spec.1 "br" ⟨"BR", "BRA"⟩ (by rfl)

instance : DecidableRel (fun (p q : String × ℚ) => q.2 ≤ p.2) :=
  fun p q => inferInstanceAs (Decidable (q.2 ≤ p.2))

instance : DecidableRel (fun (p q : String × ℚ) => p.2 ≤ q.2) :=
  fun p q => inferInstanceAs (Decidable (p.2 ≤ q.2))

instance : IsTotal (String × ℚ) (fun p q => q.2 ≤ p.2) :=
  ⟨fun p q => le_total q.2 p.2⟩

instance : IsTrans (String × ℚ) (fun p q => q.2 ≤ p.2) :=
  ⟨fun _ _ _ h1 h2 => le_trans h2 h1⟩

instance : IsTotal (String × ℚ) (fun p q => p.2 ≤ q.2) :=
  ⟨fun p q => le_total p.2 q.2⟩

instance : IsTrans (String × ℚ) (fun p q => p.2 ≤ q.2) :=
  ⟨fun _ _ _ h1 h2 => le_trans h1 h2⟩

/-- pandas `groupby('cargo')['usd'].mean()` (groupby sorts its keys): for each
distinct job title, in sorted order, the mean salary of the rows bearing it. -/
def groupbyCargoMeanUsd (rows : List Row) : List (String × ℚ) :=
  (((rows.map Row.cargo).dedup).insertionSort (· ≤ ·)).map
    (fun c => (c, listMean ((rows.filter (fun r => decide (r.cargo = c))).map Row.usd)))

/-- pandas `series.nlargest(10)`: the (at most) 10 largest entries by value,
taken from the series sorted in descending order of value. -/
def nlargest10 (l : List (String × ℚ)) : List (String × ℚ) :=
  (l.insertionSort (fun p q => q.2 ≤ p.2)).take 10

/-- `top_cargos` (app1.py line 88):
`groupby('cargo')['usd'].mean().nlargest(10).sort_values(ascending=True)`. -/
def top_cargos (rows : List Row) : List (String × ℚ) :=
  (nlargest10 (groupbyCargoMeanUsd rows)).insertionSort (fun p q => p.2 ≤ q.2)

/-- Structure of `nlargest(10)` followed by the ascending sort: at most 10
entries, ascending by value, and a permutation split of the grouped series in
which every dropped entry is bounded by every kept one. -/
lemma sort_take_structure (g : List (String × ℚ)) :
    ((nlargest10 g).insertionSort (fun p q => p.2 ≤ q.2)).length ≤ 10 ∧
    List.Sorted (fun p q : String × ℚ => p.2 ≤ q.2)
      ((nlargest10 g).insertionSort (fun p q => p.2 ≤ q.2)) ∧
    ∃ rest, g.Perm ((nlargest10 g).insertionSort (fun p q => p.2 ≤ q.2) ++ rest) ∧
      ∀ x ∈ rest, ∀ p ∈ (nlargest10 g).insertionSort (fun p q => p.2 ≤ q.2), x.2 ≤ p.2 := by
  unfold nlargest10
  set d := g.insertionSort (fun p q => q.2 ≤ p.2) with hd
  have hperm_d : d.Perm g := by rw [hd]; exact List.perm_insertionSort _ _
  have hperm_top : ((d.take 10).insertionSort (fun p q => p.2 ≤ q.2)).Perm (d.take 10) :=
    List.perm_insertionSort _ _
  have hsorted_d : List.Pairwise (fun p q : String × ℚ => q.2 ≤ p.2) d := by
    rw [hd]; exact List.sorted_insertionSort _ _
  refine ⟨?_, ?_, d.drop 10, ?_, ?_⟩
  · rw [hperm_top.length_eq, List.length_take]
    exact min_le_left _ _
  · exact List.sorted_insertionSort _ _
  · have h1 : (d.take 10 ++ d.drop 10).Perm
        ((d.take 10).insertionSort (fun p q => p.2 ≤ q.2) ++ d.drop 10) :=
      hperm_top.symm.append_right (d.drop 10)
    rw [List.take_append_drop] at h1
    exact hperm_d.symm.trans h1
  · intro x hx p hp
    have hp10 : p ∈ d.take 10 := hperm_top.subset hp
    have hPW : List.Pairwise (fun p q : String × ℚ => q.2 ≤ p.2) (d.take 10 ++ d.drop 10) := by
      rw [List.take_append_drop]
      exact hsorted_d
    exact (List.pairwise_append.mp hPW).2.2 p hp10 x hx

/-- C6: on every non-empty filtered subset, `top_cargos` has at most 10
entries, is presented sorted ascending by mean salary, and is a selection of
the largest means: the grouped per-title means split (up to permutation) into
`top_cargos` and a rest whose every mean is at most every selected mean. -/
theorem top_cargos_spec (df : List Row) (a : List Int) (s c t : List String)
    (h : df_filtrado df a s c t ≠ []) :
    (top_cargos (df_filtrado df a s c t)).length ≤ 10 ∧
    List.Sorted (fun p q : String × ℚ => p.2 ≤ q.2) (top_cargos (df_filtrado df a s c t)) ∧
    ∃ rest, (groupbyCargoMeanUsd (df_filtrado df a s c t)).Perm
        (top_cargos (df_filtrado df a s c t) ++ rest) ∧
      ∀ x ∈ rest, ∀ p ∈ top_cargos (df_filtrado df a s c t), x.2 ≤ p.2 :=
  sort_take_structure (groupbyCargoMeanUsd (df_filtrado df a s c t))

/-- Witness for C6 on the sample table with a non-empty filtered subset. -/
theorem top_cargos_spec_witness :
    (top_cargos (df_filtrado sampleDf [2024] ["senior"] ["integral"] ["media"])).length ≤ 10 ∧
    List.Sorted (fun p q : String × ℚ => p.2 ≤ q.2)
      (top_cargos (df_filtrado sampleDf [2024] ["senior"] ["integral"] ["media"])) ∧
    ∃ rest, (groupbyCargoMeanUsd
        (df_filtrado sampleDf [2024] ["senior"] ["integral"] ["media"])).Perm
        (top_cargos (df_filtrado sampleDf [2024] ["senior"] ["integral"] ["media"]) ++ rest) ∧
      ∀ x ∈ rest, ∀ p ∈ top_cargos (df_filtrado sampleDf [2024] ["senior"] ["integral"] ["media"]),
        x.2 ≤ p.2 :=
  top_cargos_spec sampleDf [2024] ["senior"] ["integral"] ["media"] (by decide)

lemma toUpper_ofNat_upper {n : Nat} (h1 : 97 ≤ n) (h2 : n ≤ 122) :
    Char.toUpper (Char.ofNat (n - 32)) = Char.ofNat (n - 32) := by
  interval_cases n <;> decide

lemma char_toUpper_idem (c : Char) : c.toUpper.toUpper = c.toUpper := by
  by_cases h : 97 ≤ c.toNat ∧ c.toNat ≤ 122
  · have hu : c.toUpper = Char.ofNat (c.toNat - 32) := by
      show (if c.toNat ≥ 97 ∧ c.toNat ≤ 122 then Char.ofNat (c.toNat - 32) else c) = _
      rw [if_pos h]
    rw [hu]
    exact toUpper_ofNat_upper h.1 h.2
  · have hu : c.toUpper = c := by
      show (if c.toNat ≥ 97 ∧ c.toNat ≤ 122 then Char.ofNat (c.toNat - 32) else c) = c
      rw [if_neg h]
    rw [hu, hu]

lemma pyUpper_idem (s : String) : pyUpper (pyUpper s) = pyUpper s := by
  unfold pyUpper
  apply congrArg String.mk
  rw [List.map_map]
  apply List.map_congr_left
  intro a _
  exact char_toUpper_idem a

/-- `converter_sigla` applied to an already upper-cased code is the `alpha_3`
image of the reference-table lookup. -/
lemma converter_sigla_pyUpper (x : String) :
    converter_sigla (pyUpper x) = (pycountryGet (pyUpper x)).map Country.alpha_3 := by
  unfold converter_sigla converter_sigla_body
  rw [pyUpper_idem]
  cases pycountryGet (pyUpper x) <;> rfl

/-- `df_ds` (app1.py line 136): the filtered subset further restricted to rows
whose job title is exactly "Data Scientist". -/
def df_ds (rows : List Row) : List Row :=
  rows.filter (fun r => decide (r.cargo = "Data Scientist"))

/-- pandas `groupby('residencia')['usd'].mean()`: for each distinct residence
code, in sorted order, the mean salary of the rows bearing it. -/
def groupbyResidenciaMeanUsd (rows : List Row) : List (String × ℚ) :=
  (((rows.map Row.residencia).dedup).insertionSort (· ≤ ·)).map
    (fun res => (res, listMean ((rows.filter
      (fun r => decide (r.residencia = res))).map Row.usd)))

/-- `df_pais` (app1.py lines 136-138): mean Data-Scientist salary per residence
code and the `iso_alpha` column, `converter_sigla` applied to the upper-cased
code (`None` when the code does not resolve). -/
def df_pais (rows : List Row) : List (String × ℚ × Option String) :=
  (groupbyResidenciaMeanUsd (df_ds rows)).map
    (fun p => (p.1, p.2, converter_sigla (pyUpper p.1)))

lemma df_ds_filter_fuse (rows : List Row) (res : String) :
    (df_ds rows).filter (fun r => decide (r.residencia = res)) =
    rows.filter (fun r => decide (r.cargo = "Data Scientist" ∧ r.residencia = res)) := by
  unfold df_ds
  rw [List.filter_filter]
  apply List.filter_congr
  intro r _
  simp [Bool.and_comm]

lemma mem_groupbyResidencia {rows : List Row} {p : String × ℚ} :
    p ∈ groupbyResidenciaMeanUsd rows ↔
      (∃ r ∈ rows, r.residencia = p.1) ∧
      p.2 = listMean ((rows.filter (fun r => decide (r.residencia = p.1))).map Row.usd) := by
  unfold groupbyResidenciaMeanUsd
  rw [List.mem_map]
  constructor
  · rintro ⟨res, hres, rfl⟩
    rw [List.mem_insertionSort, List.mem_dedup, List.mem_map] at hres
    obtain ⟨r, hr, rfl⟩ := hres
    exact ⟨⟨r, hr, rfl⟩, rfl⟩
  · rintro ⟨⟨r, hr, hres⟩, hmean⟩
    refine ⟨p.1, ?_, ?_⟩
    · rw [List.mem_insertionSort, List.mem_dedup, List.mem_map]
      exact ⟨r, hr, hres⟩
    · obtain ⟨p1, p2⟩ := p
      simp only at hmean ⊢
      rw [hmean]

/-- Membership characterisation of `df_pais`: an entry is a residence code of
some Data-Scientist row, carrying the mean salary over exactly the rows with
that title and that residence, and the converted country code. -/
lemma mem_df_pais {rows : List Row} {e : String × ℚ × Option String} :
    e ∈ df_pais rows ↔
      (∃ r ∈ rows, r.cargo = "Data Scientist" ∧ r.residencia = e.1) ∧
      e.2.1 = listMean ((rows.filter
        (fun r => decide (r.cargo = "Data Scientist" ∧ r.residencia = e.1))).map Row.usd) ∧
      e.2.2 = converter_sigla (pyUpper e.1) := by
  unfold df_pais
  rw [List.mem_map]
  constructor
  · rintro ⟨p, hp, rfl⟩
    rw [mem_groupbyResidencia] at hp
    obtain ⟨⟨r, hr, hres⟩, hmean⟩ := hp
    rw [df_ds, List.mem_filter] at hr
    refine ⟨⟨r, hr.1, by simpa using hr.2, hres⟩, ?_, rfl⟩
    rw [hmean, df_ds_filter_fuse]
  · rintro ⟨⟨r, hr, hcargo, hres⟩, hmean, hconv⟩
    refine ⟨(e.1, e.2.1), ?_, ?_⟩
    · rw [mem_groupbyResidencia]
      refine ⟨⟨r, ?_, hres⟩, ?_⟩
      · rw [df_ds, List.mem_filter]
        exact ⟨hr, by simpa using hcargo⟩
      · rw [df_ds_filter_fuse]
        exact hmean
    · obtain ⟨e1, e2, e3⟩ := e
      simp only at hconv ⊢
      rw [hconv]

/-- C7: on every non-empty filtered subset, every entry of the geographic
aggregate carries the mean salary over exactly the subset rows whose job title
is the fixed "Data Scientist" and whose residence is the entry's code, with
the 2-letter code resolved through the reference table to a 3-letter code and
unresolvable codes mapped to `none`; and the entries cover exactly the
residence codes of the subset's Data-Scientist rows. -/
theorem df_pais_spec (df : List Row) (a : List Int) (s c t : List String)
    (h : df_filtrado df a s c t ≠ []) :
    (∀ e ∈ df_pais (df_filtrado df a s c t),
      e.2.1 = listMean (((df_filtrado df a s c t).filter
        (fun r => decide (r.cargo = "Data Scientist" ∧ r.residencia = e.1))).map Row.usd) ∧
      e.2.2 = (pycountryGet (pyUpper e.1)).map Country.alpha_3) ∧
    (∀ res : String,
      (∃ m iso, (res, m, iso) ∈ df_pais (df_filtrado df a s c t)) ↔
      ∃ r ∈ df_filtrado df a s c t, r.cargo = "Data Scientist" ∧ r.residencia = res) := by
  refine ⟨?_, ?_⟩
  · intro e he
    rw [mem_df_pais] at he
    refine ⟨he.2.1, ?_⟩
    rw [he.2.2]
    exact converter_sigla_pyUpper e.1
  · intro res
    constructor
    · rintro ⟨m, iso, hmem⟩
      rw [mem_df_pais] at hmem
      exact hmem.1
    · intro hex
      refine ⟨listMean (((df_filtrado df a s c t).filter
          (fun r => decide (r.cargo = "Data Scientist" ∧ r.residencia = res))).map Row.usd),
        converter_sigla (pyUpper res), ?_⟩
      rw [mem_df_pais]
      exact ⟨hex, rfl, rfl⟩

/-- Witness for C7 on the sample table with a non-empty filtered subset. -/
theorem df_pais_spec_witness :
    (∀ e ∈ df_pais (df_filtrado sampleDf [2024] ["senior"] ["integral"] ["media"]),
      e.2.1 = listMean (((df_filtrado sampleDf [2024] ["senior"] ["integral"] ["media"]).filter
        (fun r => decide (r.cargo = "Data Scientist" ∧ r.residencia = e.1))).map Row.usd) ∧
      e.2.2 = (pycountryGet (pyUpper e.1)).map Country.alpha_3) ∧
    (∀ res : String,
      (∃ m iso, (res, m, iso) ∈ df_pais
        (df_filtrado sampleDf [2024] ["senior"] ["integral"] ["media"])) ↔
      ∃ r ∈ df_filtrado sampleDf [2024] ["senior"] ["integral"] ["media"],
        r.cargo = "Data Scientist" ∧ r.residencia = res) :=
  df_pais_spec sampleDf [2024] ["senior"] ["integral"] ["media"] (by decide)
